import Mathlib

/-!
Verification of the sensor-station core of `src/main.py` (a FastAPI +
Discord weather/habitat monitor for a sulcata tortoise enclosure).

Shallow embedding conventions:
* Times are modelled as exact numbers: `pd.Timestamp` instants as natural
  numbers of nanoseconds since the epoch, `time.time()` instants as
  rationals (seconds).
* IEEE-754 doubles are modelled as rationals.  Every numeric comparison the
  claims touch is against constants (18, 27, 35, 40, 40-10, 60+15, 1800)
  that are exactly representable as doubles, and no rounding arithmetic
  occurs on the compared values, so the rational model is faithful.
* Python exceptions are modelled by explicit result constructors.
-/

namespace SulcataBot

/-- `MAX_DATA_POINTS = 10000` (src/main.py line 58). -/
def MAX_DATA_POINTS : ℕ := 10000

/-- `ALERT_COOLDOWN = 1800` seconds (src/main.py line 76). -/
def ALERT_COOLDOWN : ℚ := 1800

/-- The `SULCATA_ENV` configuration dict (src/main.py lines 64-71). -/
structure Envelope where
  temp_min : ℚ
  temp_ideal_min : ℚ
  temp_ideal_max : ℚ
  temp_max : ℚ
  hum_min : ℚ
  hum_max : ℚ
deriving DecidableEq, Repr

/-- The concrete values of `SULCATA_ENV` (src/main.py lines 64-71). -/
def SULCATA_ENV : Envelope :=
  { temp_min := 18, temp_ideal_min := 27, temp_ideal_max := 35
    temp_max := 40, hum_min := 40, hum_max := 60 }

/-- A JSON value as it appears in an ingestion payload. `num` is a JSON
number; `numStr` is a string that Python `float()` parses (we record the
parsed value); `badStr` is a string `float()` rejects; `null` is JSON null
(rejected by `float()` with a TypeError). -/
inductive JVal where
  | num (q : ℚ)
  | numStr (q : ℚ)
  | badStr (s : String)
  | null
deriving DecidableEq, Repr

/-- Python `float(x)` on a JSON value: `some` of the parsed value when the
conversion succeeds, `none` when it raises (ValueError/TypeError). -/
def pyFloat : JVal → Option ℚ
  | .num q => some q
  | .numStr q => some q
  | .badStr _ => none
  | .null => none

/-- One stored reading (an element of the `sensor_data` list): `temp`,
`hum`, `time` (a `pd.Timestamp`, modelled as epoch nanoseconds) and the
extra payload fields preserved verbatim (src/main.py lines 588-597). -/
structure Entry where
  temp : ℚ
  hum : ℚ
  time : ℕ
  extra : List (String × JVal)
deriving DecidableEq, Repr

-- --- Temperature/humidity classification ---

/-- The five temperature bands of the `!sulcata_status` command. -/
inductive TempBand where
  | tooCold
  | cool
  | ideal
  | warm
  | tooHot
deriving DecidableEq, Repr

/-- Temperature classification chain of `sulcata_status`
(src/main.py lines 417-432): `if temp < temp_min / elif temp <
temp_ideal_min / elif temp <= temp_ideal_max / elif temp <= temp_max /
else`. -/
def sulcataTempStatus (env : Envelope) (t : ℚ) : TempBand :=
  if t < env.temp_min then .tooCold
  else if t < env.temp_ideal_min then .cool
  else if t ≤ env.temp_ideal_max then .ideal
  else if t ≤ env.temp_max then .warm
  else .tooHot

-- --- Alert-worthiness (check_conditions_and_alert, lines 524-561) ---

/-- Temperature breach test of `check_conditions_and_alert`
(src/main.py lines 528-543): `if temp < temp_min ... elif temp > temp_max`. -/
def tempAlertNeeded (env : Envelope) (t : ℚ) : Bool :=
  if t < env.temp_min then true
  else if env.temp_max < t then true
  else false

/-- Humidity breach test of `check_conditions_and_alert`
(src/main.py lines 546-561): `if hum < hum_min - 10 ... elif hum >
hum_max + 15`. -/
def humAlertNeeded (env : Envelope) (h : ℚ) : Bool :=
  if h < env.hum_min - 10 then true
  else if env.hum_max + 15 < h then true
  else false

/-- `alert_needed` after both checks of `check_conditions_and_alert`. -/
def alertNeeded (env : Envelope) (t h : ℚ) : Bool :=
  tempAlertNeeded env t || humAlertNeeded env h

-- --- Series Store (append + trim) ---

/-- Python `l[-k:]` for a positive count `k`: the last `min (l.length, k)`
elements. -/
def lastN {α : Type*} (k : ℕ) (l : List α) : List α := l.drop (l.length - k)

/-- Python `l[-limit:]` for an arbitrary integer `limit` (src/main.py line
648): for positive `limit` the start index `-limit` clamps to 0 from the
left, so the slice keeps the last `min (l.length, limit)` elements; for
`limit ≤ 0` the start index `-limit` is non-negative, so the slice drops
the first `-limit` elements (in particular `limit = 0` keeps everything). -/
def pyTailSlice {α : Type*} (limit : ℤ) (l : List α) : List α :=
  if 0 < limit then l.drop (l.length - limit.toNat) else l.drop (-limit).toNat

/-- The append-and-trim step of the `/update` handler (src/main.py lines
599-604): `sensor_data.append(entry)`, then `if len(sensor_data) >
MAX_DATA_POINTS: sensor_data[:] = sensor_data[-MAX_DATA_POINTS:]`. -/
def appendReading (store : List Entry) (e : Entry) : List Entry :=
  if MAX_DATA_POINTS < (store ++ [e]).length then
    lastN MAX_DATA_POINTS (store ++ [e])
  else store ++ [e]

-- --- Persistence Adapter (load_sensor_data / save_sensor_data) ---

/-- One element of the JSON array in `data/sensor_data.json`: same fields
as the in-memory entry but with the timestamp serialized by
`isoformat()`.  The ISO-8601 string is an injective decimal rendering of
the instant, which we model by the base-10 digit string of the nanosecond
count; `temp`/`hum` are JSON numbers, which Python's `json` round-trips
exactly for doubles (repr-based shortest round-trip). -/
structure SavedEntry where
  temp : ℚ
  hum : ℚ
  time : List ℕ
  extra : List (String × JVal)
deriving DecidableEq, Repr

/-- `{**item, "time": item["time"].isoformat()}` (src/main.py lines
100-103). -/
def serializeEntry (e : Entry) : SavedEntry :=
  ⟨e.temp, e.hum, Nat.digits 10 e.time, e.extra⟩

/-- `entry["time"] = pd.Timestamp(entry["time"])` (src/main.py line 89):
parse the serialized timestamp back to an instant. -/
def parseSavedEntry (s : SavedEntry) : Entry :=
  ⟨s.temp, s.hum, Nat.ofDigits 10 s.time, s.extra⟩

/-- State of the durable file as observed by `load_sensor_data`:
`missing` (no file), `corrupt` (`json.load` or the timestamp conversion
raises), or parsed `content`. -/
inductive FileState where
  | missing
  | corrupt
  | content (data : List SavedEntry)

/-- `load_sensor_data` (src/main.py lines 80-94).  If the file does not
exist nothing happens, so the prior value of `sensor_data` is kept (it is
`[]` at both startup call sites, lines 670 and 688).  If reading or
parsing raises, the `except` clause logs and sets `sensor_data = []`.
Otherwise the parsed entries are kept, truncated to the last
`MAX_DATA_POINTS`.  Every branch returns: the function is total, so the
load never raises to its caller. -/
def load_sensor_data : FileState → List Entry → List Entry
  | .missing, prior => prior
  | .corrupt, _ => []
  | .content d, _ => lastN MAX_DATA_POINTS (d.map parseSavedEntry)

/-- `save_sensor_data` (src/main.py lines 96-108): serialize every stored
entry in order. -/
def save_sensor_data (store : List Entry) : List SavedEntry :=
  store.map serializeEntry

-- --- Query endpoint (get_data) ---

/-- `pd.Timedelta(hours=h)` in nanoseconds. -/
def hoursToNs (h : ℤ) : ℤ := h * 3600000000000

/-- The time filter of the `/data` endpoint (src/main.py lines 643-645):
`if hours:` is Python truthiness, so the filter applies only when `hours`
is present and nonzero; it keeps entries with `time >= now - hours`. -/
def getDataTimeFilter (hours : Option ℤ) (now : ℤ) (store : List Entry) :
    List Entry :=
  match hours with
  | none => store
  | some h =>
    if h = 0 then store
    else store.filter fun e => now - hoursToNs h ≤ (e.time : ℤ)

/-- `get_data` (src/main.py lines 633-656): an empty store short-circuits
to an empty response; otherwise the copy of the store is time-filtered,
tail-truncated with the Python slice `data[-limit:]`, and serialized for
the JSON response. -/
def get_data (hours : Option ℤ) (limit : ℤ) (now : ℤ)
    (store : List Entry) : List SavedEntry :=
  if store.isEmpty then []
  else (pyTailSlice limit (getDataTimeFilter hours now store)).map serializeEntry

-- --- Evaluation & Alerting Policy (check_conditions_and_alert) ---

/-- Inputs of one `check_conditions_and_alert` evaluation, together with
the behavior of the external collaborators during that evaluation:
`channelFound` is whether `bot.get_channel` returns a channel, `sendOk`
whether `channel.send` completes without raising. -/
structure AlertInput where
  now : ℚ
  temp : ℚ
  hum : ℚ
  channelFound : Bool
  sendOk : Bool
deriving DecidableEq, Repr

/-- Python truthiness of `ALERT_CHANNEL_ID` in `if not ALERT_CHANNEL_ID:`
(src/main.py line 521): falsy when unset (`None`) and when zero. -/
def channelConfigured : Option ℤ → Bool
  | none => false
  | some i => decide (i ≠ 0)

/-- `check_conditions_and_alert` (src/main.py lines 515-573) as a state
transition on `last_alert_time` (seconds, as from `time.time()`), also
reporting whether an alert message was sent.  The handler returns early
when no alert channel is configured or when the cooldown has not expired
(`current_time - last_alert_time < ALERT_COOLDOWN`); otherwise, when the
reading is alert-worthy, it resolves the channel and sends.  The
assignment `last_alert_time = current_time` runs only after
`channel.send` returns: if the send raises, control jumps to the `except`
handler, which only logs, leaving `last_alert_time` unchanged. -/
def check_conditions_and_alert (chan : Option ℤ) (last : ℚ)
    (inp : AlertInput) : ℚ × Bool :=
  if !channelConfigured chan || decide (inp.now - last < ALERT_COOLDOWN) then
    (last, false)
  else if alertNeeded SULCATA_ENV inp.temp inp.hum then
    if inp.channelFound then
      if inp.sendOk then (inp.now, true) else (last, false)
    else (last, false)
  else (last, false)

/-- Iterate `check_conditions_and_alert` over a sequence of evaluations
(one per ingested reading), collecting the evaluation time of every
evaluation that dispatched an alert. -/
def runAlerts (chan : Option ℤ) : ℚ → List AlertInput → ℚ × List ℚ
  | last, [] => (last, [])
  | last, inp :: rest =>
    ((runAlerts chan (check_conditions_and_alert chan last inp).1 rest).1,
      (if (check_conditions_and_alert chan last inp).2 then [inp.now] else [])
        ++ (runAlerts chan (check_conditions_and_alert chan last inp).1 rest).2)

/-- The alert dispatch times of a run. -/
def emissions (chan : Option ℤ) (last : ℚ)
    (inputs : List AlertInput) : List ℚ :=
  (runAlerts chan last inputs).2

-- --- Ingestion endpoint (update_data) ---

/-- HTTP outcome of the `/update` handler: `ok` carries the ideal-band
statuses of the response (`true` = "ok", `false` = "warning");
`httpError s` is an `HTTPException` with status `s` propagating to the
framework. -/
inductive UpdateResponse where
  | ok (tempStatus humStatus : Bool)
  | httpError (status : ℕ)
deriving DecidableEq, Repr

/-- `update_data` (src/main.py lines 575-631), acting on the store.  The
whole body runs inside `try`; `except json.JSONDecodeError` yields a 400
for an unparseable body (not modelled here: the payload argument is the
parsed JSON object), but every other exception — including the
`HTTPException(status_code=400)` raised for a missing required field,
since FastAPI's `HTTPException` subclasses `Exception` — is caught by the
blanket `except Exception` and re-raised as `HTTPException(500)`.  A
`float()` conversion failure (ValueError/TypeError) takes the same path.
On success the entry (with extra payload fields preserved) is appended
and trimmed, and the response carries the ideal-band statuses.  The
periodic save and the alert check are side effects on other state and are
modelled separately (`save_sensor_data`, `check_conditions_and_alert`). -/
def update_data (payload : List (String × JVal)) (now : ℕ)
    (store : List Entry) : List Entry × UpdateResponse :=
  match payload.lookup "temp" with
  | none => (store, .httpError 500)
  | some tv =>
    match payload.lookup "hum" with
    | none => (store, .httpError 500)
    | some hv =>
      match pyFloat tv with
      | none => (store, .httpError 500)
      | some t =>
        match pyFloat hv with
        | none => (store, .httpError 500)
        | some h =>
          (appendReading store
            ⟨t, h, now, payload.filter fun kv =>
              (kv.1 != "temp") && (kv.1 != "hum") && (kv.1 != "time")⟩,
            .ok (decide (SULCATA_ENV.temp_ideal_min ≤ t ∧
                  t ≤ SULCATA_ENV.temp_ideal_max))
                (decide (SULCATA_ENV.hum_min ≤ h ∧
                  h ≤ SULCATA_ENV.hum_max)))

-- --- Rolling-average smoothing (send_plot_rolling) ---

/-- `Series.rolling(window=w, center=True).mean()` for an integer window
`w` (pandas semantics): the value labelled at position `i` is the mean of
the `w` entries starting at `i - w/2` (integer division); a position whose
window would run off either end is missing (`none`), matching the default
`min_periods = window`. -/
def rollingCenteredMean (w : ℕ) (xs : List ℚ) : List (Option ℚ) :=
  (List.range xs.length).map fun i =>
    if w / 2 ≤ i ∧ i - w / 2 + w ≤ xs.length then
      some (((xs.drop (i - w / 2)).take w).sum / w)
    else none

/-- Forward fill with a carried last-valid value. -/
def ffillAux (carry : Option ℚ) : List (Option ℚ) → List (Option ℚ)
  | [] => []
  | none :: t => carry :: ffillAux carry t
  | some x :: t => some x :: ffillAux (some x) t

/-- `fillna(method='ffill')`: propagate the last valid value forward. -/
def ffill (l : List (Option ℚ)) : List (Option ℚ) := ffillAux none l

/-- `fillna(method='bfill')`: propagate the next valid value backward,
i.e. forward fill on the reversed list. -/
def bfill (l : List (Option ℚ)) : List (Option ℚ) :=
  (ffill l.reverse).reverse

/-- Result of the `!plot_rolling` data path. -/
inductive RollingResult where
  | insufficient
  | plotted (tempSmooth humSmooth : List (Option ℚ))
deriving DecidableEq, Repr

/-- The data path of `send_plot_rolling` (src/main.py lines 227-240),
applied to the already time-filtered and time-sorted frame `df`:
`if df.empty or len(df) < window:` reports insufficient data; otherwise
each column gets a centered rolling mean followed by forward fill then
backward fill of the edge positions. -/
def send_plot_rolling (w : ℕ) (df : List Entry) : RollingResult :=
  if df.length = 0 ∨ df.length < w then .insufficient
  else
    .plotted (bfill (ffill (rollingCenteredMean w (df.map Entry.temp))))
      (bfill (ffill (rollingCenteredMean w (df.map Entry.hum))))

end SulcataBot

namespace SulcataBot

/-- The temperature breach test returns `true` exactly strictly outside
`[temp_min, temp_max]`. -/
lemma tempAlertNeeded_iff (env : Envelope) (t : ℚ) :
    tempAlertNeeded env t = true ↔ t < env.temp_min ∨ env.temp_max < t := by
  unfold tempAlertNeeded
  split_ifs with h1 h2
  · simp [h1]
  · simp [h2]
  · simp only [Bool.false_eq_true, false_iff]
    rintro (hc | hc)
    · exact h1 hc
    · exact h2 hc

/-- The humidity breach test returns `true` exactly more than 10 below
`hum_min` or more than 15 above `hum_max`. -/
lemma humAlertNeeded_iff (env : Envelope) (h : ℚ) :
    humAlertNeeded env h = true ↔
      h < env.hum_min - 10 ∨ env.hum_max + 15 < h := by
  unfold humAlertNeeded
  split_ifs with h1 h2
  · simp [h1]
  · simp [h2]
  · simp only [Bool.false_eq_true, false_iff]
    rintro (hc | hc)
    · exact h1 hc
    · exact h2 hc

/-- Claim C5: for every evaluated reading, temperature is alert-worthy iff
it lies strictly outside `[temp_min, temp_max]` (below 18 or above 40 with
the defaults), and humidity is alert-worthy iff it is more than 10 below
`hum_min` (below 30) or more than 15 above `hum_max` (above 75). -/
theorem alert_worthiness_thresholds (t h : ℚ) :
    (tempAlertNeeded SULCATA_ENV t = true ↔ t < 18 ∨ 40 < t) ∧
    (humAlertNeeded SULCATA_ENV h = true ↔ h < 30 ∨ 75 < h) ∧
    (∀ env : Envelope,
      (tempAlertNeeded env t = true ↔ t < env.temp_min ∨ env.temp_max < t) ∧
      (humAlertNeeded env h = true ↔
        h < env.hum_min - 10 ∨ env.hum_max + 15 < h)) := by
  refine ⟨?_, ?_, fun env => ⟨tempAlertNeeded_iff env t, humAlertNeeded_iff env h⟩⟩
  · rw [tempAlertNeeded_iff]; norm_num [SULCATA_ENV]
  · rw [humAlertNeeded_iff]; norm_num [SULCATA_ENV]

/-- `sulcataTempStatus` at the default envelope, with its thresholds as
literals. -/
lemma sulcataTempStatus_default (t : ℚ) :
    sulcataTempStatus SULCATA_ENV t =
      if t < 18 then .tooCold
      else if t < 27 then .cool
      else if t ≤ 35 then .ideal
      else if t ≤ 40 then .warm
      else .tooHot := rfl

lemma band_tooCold (t : ℚ) :
    sulcataTempStatus SULCATA_ENV t = .tooCold ↔ t < 18 := by
  rw [sulcataTempStatus_default]
  constructor
  · intro hEq
    split_ifs at hEq with h1 h2 h3 h4
    exact h1
  · intro h1
    rw [if_pos h1]

lemma band_cool (t : ℚ) :
    sulcataTempStatus SULCATA_ENV t = .cool ↔ 18 ≤ t ∧ t < 27 := by
  rw [sulcataTempStatus_default]
  constructor
  · intro hEq
    split_ifs at hEq with h1 h2 h3 h4
    exact ⟨le_of_not_lt h1, h2⟩
  · rintro ⟨ha, hb⟩
    rw [if_neg (not_lt.mpr (by linarith)), if_pos hb]

lemma band_ideal (t : ℚ) :
    sulcataTempStatus SULCATA_ENV t = .ideal ↔ 27 ≤ t ∧ t ≤ 35 := by
  rw [sulcataTempStatus_default]
  constructor
  · intro hEq
    split_ifs at hEq with h1 h2 h3 h4
    exact ⟨le_of_not_lt h2, h3⟩
  · rintro ⟨ha, hb⟩
    rw [if_neg (not_lt.mpr (by linarith)), if_neg (not_lt.mpr ha), if_pos hb]

lemma band_warm (t : ℚ) :
    sulcataTempStatus SULCATA_ENV t = .warm ↔ 35 < t ∧ t ≤ 40 := by
  rw [sulcataTempStatus_default]
  constructor
  · intro hEq
    split_ifs at hEq with h1 h2 h3 h4
    exact ⟨lt_of_not_le h3, h4⟩
  · rintro ⟨ha, hb⟩
    rw [if_neg (not_lt.mpr (by linarith)), if_neg (not_lt.mpr (by linarith)),
      if_neg (not_le.mpr ha), if_pos hb]

lemma band_tooHot (t : ℚ) :
    sulcataTempStatus SULCATA_ENV t = .tooHot ↔ 40 < t := by
  rw [sulcataTempStatus_default]
  constructor
  · intro hEq
    split_ifs at hEq with h1 h2 h3 h4
    exact lt_of_not_le h4
  · intro ha
    rw [if_neg (not_lt.mpr (by linarith)), if_neg (not_lt.mpr (by linarith)),
      if_neg (not_le.mpr (by linarith)), if_neg (not_le.mpr ha)]

/-- Claim C6: the status classification maps every temperature to exactly
one of 5 bands, with boundaries inclusive on the safe side: below 18 is
too-cold, `[18, 27)` cool, `[27, 35]` ideal, `(35, 40]` warm, above 40
too-hot; and 30.0 is ideal, 15.0 too-cold, 41.0 too-hot. -/
theorem temp_band_classification (t : ℚ) :
    (sulcataTempStatus SULCATA_ENV t = .tooCold ↔ t < 18) ∧
    (sulcataTempStatus SULCATA_ENV t = .cool ↔ 18 ≤ t ∧ t < 27) ∧
    (sulcataTempStatus SULCATA_ENV t = .ideal ↔ 27 ≤ t ∧ t ≤ 35) ∧
    (sulcataTempStatus SULCATA_ENV t = .warm ↔ 35 < t ∧ t ≤ 40) ∧
    (sulcataTempStatus SULCATA_ENV t = .tooHot ↔ 40 < t) ∧
    sulcataTempStatus SULCATA_ENV 30 = .ideal ∧
    sulcataTempStatus SULCATA_ENV 15 = .tooCold ∧
    sulcataTempStatus SULCATA_ENV 41 = .tooHot :=
  ⟨band_tooCold t, band_cool t, band_ideal t, band_warm t, band_tooHot t,
    by decide, by decide, by decide⟩

-- --- Series Store invariant (C1) ---

/-- One append on a store that is the tail of some history `pre` yields the
tail of `pre ++ [e]`. -/
lemma appendReading_lastN (pre : List Entry) (e : Entry) :
    appendReading (lastN MAX_DATA_POINTS pre) e =
      lastN MAX_DATA_POINTS (pre ++ [e]) := by
  have hM : 0 < MAX_DATA_POINTS := by norm_num [MAX_DATA_POINTS]
  unfold appendReading lastN
  by_cases hc : pre.length < MAX_DATA_POINTS
  · have h1 : pre.length - MAX_DATA_POINTS = 0 := by omega
    rw [h1, List.drop_zero]
    have h2 : ¬ MAX_DATA_POINTS < (pre ++ [e]).length := by
      rw [List.length_append, List.length_singleton]; omega
    rw [if_neg h2]
    have h3 : (pre ++ [e]).length - MAX_DATA_POINTS = 0 := by
      rw [List.length_append, List.length_singleton]; omega
    rw [h3, List.drop_zero]
  · push_neg at hc
    have hdlen : (pre.drop (pre.length - MAX_DATA_POINTS)).length
        = MAX_DATA_POINTS := by
      rw [List.length_drop]; omega
    have h2 : MAX_DATA_POINTS <
        (pre.drop (pre.length - MAX_DATA_POINTS) ++ [e]).length := by
      rw [List.length_append, List.length_singleton, hdlen]; omega
    rw [if_pos h2]
    rw [List.length_append, List.length_singleton, hdlen]
    have h3 : MAX_DATA_POINTS + 1 - MAX_DATA_POINTS = 1 := by omega
    rw [h3]
    rw [List.drop_append_eq_append_drop, List.drop_append_eq_append_drop]
    rw [List.drop_drop, hdlen]
    have h4 : 1 - MAX_DATA_POINTS = 0 := by omega
    have h5 : (pre ++ [e]).length - MAX_DATA_POINTS
        = pre.length - MAX_DATA_POINTS + 1 := by
      rw [List.length_append, List.length_singleton]; omega
    rw [h4, h5]
    have h6 : pre.length - MAX_DATA_POINTS + 1 - pre.length = 0 := by omega
    rw [h6]

/-- Folding appends over a history tail gives the tail of the extended
history. -/
lemma foldl_appendReading (es pre : List Entry) :
    es.foldl appendReading (lastN MAX_DATA_POINTS pre)
      = lastN MAX_DATA_POINTS (pre ++ es) := by
  induction es generalizing pre with
  | nil => rw [List.foldl_nil, List.append_nil]
  | cons e es ih =>
    rw [List.foldl_cons, appendReading_lastN, ih]
    rw [List.append_assoc, List.singleton_append]

/-- Claim C1: for every sequence of ingested readings (each processed by
the append-and-trim step of the `/update` handler, starting from the empty
store), the stored series has length at most `MAX_DATA_POINTS` and its
contents are exactly the last `min n MAX_DATA_POINTS` appended readings in
original order (oldest evicted first).  Instantiating `es` at every prefix
of a call sequence gives the invariant after each call. -/
theorem series_store_bounded_fifo (es : List Entry) :
    (es.foldl appendReading []).length ≤ MAX_DATA_POINTS ∧
    es.foldl appendReading []
      = lastN (min es.length MAX_DATA_POINTS) es := by
  have hbase : lastN MAX_DATA_POINTS ([] : List Entry) = [] := by
    simp [lastN]
  have h := foldl_appendReading es []
  rw [List.nil_append, hbase] at h
  rw [h]
  constructor
  · rw [lastN, List.length_drop]; omega
  · have harg : es.length - MAX_DATA_POINTS
        = es.length - min es.length MAX_DATA_POINTS := by omega
    rw [lastN, lastN, harg]

-- --- Persistence Adapter (C7, C8) ---

/-- Claim C7: the load operation is a total function over every file state
(never raises to its caller); a missing file yields the empty series (the
prior store value, which is `[]` at both of its call sites), and a file
that fails to parse yields the empty series after logging. -/
theorem load_never_raises :
    load_sensor_data .missing [] = [] ∧
    (∀ prior, load_sensor_data .corrupt prior = []) ∧
    (∀ d prior, load_sensor_data (.content d) prior
      = lastN MAX_DATA_POINTS (d.map parseSavedEntry)) :=
  ⟨rfl, fun _ => rfl, fun _ _ => rfl⟩

/-- Deserializing a serialized entry recovers it exactly. -/
lemma parseSavedEntry_serializeEntry (e : Entry) :
    parseSavedEntry (serializeEntry e) = e := by
  unfold parseSavedEntry serializeEntry
  simp [Nat.ofDigits_digits]

/-- Claim C8: `save` followed by `load` round-trips a series of at most
`MAX_DATA_POINTS` readings exactly: temperatures and humidities are
recovered bit-for-bit, timestamps are recovered exactly (hence at least to
the second), and order is preserved. -/
theorem save_load_roundtrip (s prior : List Entry)
    (hlen : s.length ≤ MAX_DATA_POINTS) :
    load_sensor_data (.content (save_sensor_data s)) prior = s := by
  have hcomp : parseSavedEntry ∘ serializeEntry = id :=
    funext parseSavedEntry_serializeEntry
  simp only [load_sensor_data, save_sensor_data]
  rw [List.map_map, hcomp, List.map_id, lastN]
  have h0 : s.length - MAX_DATA_POINTS = 0 := by omega
  rw [h0, List.drop_zero]

/-- Witness for C8 at a concrete two-reading series. -/
theorem save_load_roundtrip_witness :
    ([⟨57/2, 55, 1700000000000000000, [("battery", JVal.num 4)]⟩,
      ⟨29, 221/4, 1700000000600000000, []⟩] : List Entry).length
        ≤ MAX_DATA_POINTS ∧
    load_sensor_data
      (.content (save_sensor_data
        [⟨57/2, 55, 1700000000000000000, [("battery", JVal.num 4)]⟩,
         ⟨29, 221/4, 1700000000600000000, []⟩])) []
      = [⟨57/2, 55, 1700000000000000000, [("battery", JVal.num 4)]⟩,
         ⟨29, 221/4, 1700000000600000000, []⟩] :=
  ⟨by norm_num [MAX_DATA_POINTS],
   save_load_roundtrip _ _ (by norm_num [MAX_DATA_POINTS])⟩

-- --- Query endpoint (C10) ---

/-- Claim C10: calling the `/data` endpoint on a non-empty store with
`limit = 0` returns every reading that passes the time filter (serialized
for the response), not zero readings: the Python tail-slice `data[-0:]` is
`data[0:]`, the whole sequence, so the response size equals the filtered
size and is not bounded by the `limit` parameter. -/
theorem get_data_limit_zero (hours : Option ℤ) (now : ℤ)
    (store : List Entry) (hne : store ≠ []) :
    get_data hours 0 now store
      = (getDataTimeFilter hours now store).map serializeEntry ∧
    (get_data hours 0 now store).length
      = (getDataTimeFilter hours now store).length := by
  have hie : store.isEmpty = false := by
    cases store
    · exact absurd rfl hne
    · rfl
  have hslice : pyTailSlice 0 (getDataTimeFilter hours now store)
      = getDataTimeFilter hours now store := by
    unfold pyTailSlice
    norm_num
  constructor
  · unfold get_data
    rw [hie]
    simp only [Bool.false_eq_true, if_false]
    rw [hslice]
  · unfold get_data
    rw [hie]
    simp only [Bool.false_eq_true, if_false]
    rw [hslice, List.length_map]

/-- Witness for C10: a two-reading store queried with `hours = 24` and
`limit = 0` returns both serialized readings that pass the filter. -/
theorem get_data_limit_zero_witness :
    ([⟨28, 50, 3600000000000000, []⟩, ⟨30, 52, 3603600000000000, []⟩]
        : List Entry) ≠ [] ∧
    get_data (some 24) 0 3610000000000000
        [⟨28, 50, 3600000000000000, []⟩, ⟨30, 52, 3603600000000000, []⟩]
      = (getDataTimeFilter (some 24) 3610000000000000
          [⟨28, 50, 3600000000000000, []⟩,
           ⟨30, 52, 3603600000000000, []⟩]).map serializeEntry :=
  ⟨by decide, (get_data_limit_zero _ _ _ (by decide)).1⟩

-- --- Ingestion rejection path (C2) ---

/-- Claim C2 (code behavior at the failing inputs): an ingestion payload
missing `temp`, missing `hum`, or whose `temp` or `hum` does not parse as
a float leaves the series unchanged but yields an HTTP 500 server error,
not a 4xx client error: the explicit `HTTPException(400)` raised for the
missing field (and the `ValueError` from `float()`) are caught by the
blanket `except Exception` and re-raised as `HTTPException(500)`. -/
theorem update_rejection_is_500 (now : ℕ) (store : List Entry) :
    update_data [("hum", .num 50)] now store = (store, .httpError 500) ∧
    update_data [("temp", .num 28)] now store = (store, .httpError 500) ∧
    update_data [("temp", .badStr "abc"), ("hum", .num 50)] now store
      = (store, .httpError 500) ∧
    update_data [("temp", .num 28), ("hum", .badStr "xx")] now store
      = (store, .httpError 500) :=
  ⟨rfl, rfl, rfl, rfl⟩

-- --- Alert cooldown (C3, C4) ---

/-- Closed form of one `check_conditions_and_alert` evaluation: an alert
is dispatched (and the cooldown timestamp advanced to `now`) exactly when
the channel is configured, the cooldown has expired, the reading is
alert-worthy, the channel resolves and the send succeeds; in every other
case the state is unchanged. -/
lemma check_spec (chan : Option ℤ) (last : ℚ) (inp : AlertInput) :
    check_conditions_and_alert chan last inp
      = if channelConfigured chan
            && decide (ALERT_COOLDOWN ≤ inp.now - last)
            && alertNeeded SULCATA_ENV inp.temp inp.hum
            && inp.channelFound && inp.sendOk
        then (inp.now, true) else (last, false) := by
  unfold check_conditions_and_alert
  rcases le_or_lt ALERT_COOLDOWN (inp.now - last) with hcd | hcd
  · cases hcc : channelConfigured chan <;>
      cases han : alertNeeded SULCATA_ENV inp.temp inp.hum <;>
        cases hcf : inp.channelFound <;>
          cases hcs : inp.sendOk <;>
            simp [hcc, han, hcf, hcs, hcd, not_lt.mpr hcd]
  · cases hcc : channelConfigured chan <;>
      cases han : alertNeeded SULCATA_ENV inp.temp inp.hum <;>
        cases hcf : inp.channelFound <;>
          cases hcs : inp.sendOk <;>
            simp [hcc, han, hcf, hcs, hcd, not_le.mpr hcd]

/-- An evaluation that dispatched set the state to its own time, and its
time is at least a cooldown past the prior state. -/
lemma check_true_inv (chan : Option ℤ) (last : ℚ) (inp : AlertInput)
    (st2 : ℚ)
    (h : check_conditions_and_alert chan last inp = (st2, true)) :
    st2 = inp.now ∧ last + ALERT_COOLDOWN ≤ inp.now := by
  rw [check_spec] at h
  split_ifs at h with hcond
  · simp only [Prod.mk.injEq] at h
    simp only [Bool.and_eq_true, decide_eq_true_eq] at hcond
    refine ⟨h.1.symm, ?_⟩
    have := hcond.1.1.1.2
    linarith
  · simp only [Prod.mk.injEq] at h
    exact absurd h.2 (by decide)

/-- An evaluation that did not dispatch leaves the state unchanged. -/
lemma check_false_inv (chan : Option ℤ) (last : ℚ) (inp : AlertInput)
    (st2 : ℚ)
    (h : check_conditions_and_alert chan last inp = (st2, false)) :
    st2 = last := by
  rw [check_spec] at h
  split_ifs at h with hcond
  · simp only [Prod.mk.injEq] at h
    exact absurd h.2 (by decide)
  · simp only [Prod.mk.injEq] at h
    exact h.1.symm

/-- Unfolding one step of a run. -/
lemma emissions_cons (chan : Option ℤ) (last : ℚ) (inp : AlertInput)
    (rest : List AlertInput) :
    emissions chan last (inp :: rest)
      = (if (check_conditions_and_alert chan last inp).2 then [inp.now]
          else [])
        ++ emissions chan (check_conditions_and_alert chan last inp).1
            rest := rfl

/-- One step of a run, when the evaluation dispatched. -/
lemma emissions_cons_true (chan : Option ℤ) (last : ℚ) (inp : AlertInput)
    (rest : List AlertInput) (st2 : ℚ)
    (h : check_conditions_and_alert chan last inp = (st2, true)) :
    emissions chan last (inp :: rest)
      = inp.now :: emissions chan st2 rest := by
  rw [emissions_cons, h]
  exact rfl

/-- One step of a run, when the evaluation did not dispatch. -/
lemma emissions_cons_false (chan : Option ℤ) (last : ℚ) (inp : AlertInput)
    (rest : List AlertInput) (st2 : ℚ)
    (h : check_conditions_and_alert chan last inp = (st2, false)) :
    emissions chan last (inp :: rest) = emissions chan st2 rest := by
  rw [emissions_cons, h]
  exact rfl

/-- Every dispatch time in a run is at least a cooldown after the state
the run started from. -/
lemma emissions_lb (chan : Option ℤ) :
    ∀ (inputs : List AlertInput) (last t : ℚ),
      t ∈ emissions chan last inputs → last + ALERT_COOLDOWN ≤ t := by
  intro inputs
  induction inputs with
  | nil =>
    intro last t ht
    simp [emissions, runAlerts] at ht
  | cons inp rest ih =>
    intro last t ht
    rcases hres : check_conditions_and_alert chan last inp with ⟨st2, emitted⟩
    cases emitted with
    | true =>
      obtain ⟨hst, hstep⟩ := check_true_inv chan last inp st2 hres
      rw [emissions_cons_true chan last inp rest st2 hres, hst] at ht
      rcases List.mem_cons.mp ht with rfl | htail
      · exact hstep
      · have hC : (0 : ℚ) ≤ ALERT_COOLDOWN := by norm_num [ALERT_COOLDOWN]
        have := ih inp.now t htail
        linarith
    | false =>
      have hst := check_false_inv chan last inp st2 hres
      rw [emissions_cons_false chan last inp rest st2 hres, hst] at ht
      exact ih last t ht

/-- Dispatch times in a run are pairwise separated by at least the
cooldown. -/
lemma emissions_pairwise (chan : Option ℤ) :
    ∀ (inputs : List AlertInput) (last : ℚ),
      List.Pairwise (fun a b => a + ALERT_COOLDOWN ≤ b)
        (emissions chan last inputs) := by
  intro inputs
  induction inputs with
  | nil =>
    intro last
    simp [emissions, runAlerts]
  | cons inp rest ih =>
    intro last
    rcases hres : check_conditions_and_alert chan last inp with ⟨st2, emitted⟩
    cases emitted with
    | true =>
      obtain ⟨hst, _⟩ := check_true_inv chan last inp st2 hres
      rw [emissions_cons_true chan last inp rest st2 hres, hst]
      refine List.Pairwise.cons ?_ (ih inp.now)
      intro b hb
      exact emissions_lb chan rest inp.now b hb
    | false =>
      have hst := check_false_inv chan last inp st2 hres
      rw [emissions_cons_false chan last inp rest st2 hres, hst]
      exact ih last

/-- Claim C3: alert dispatches are rate-limited by the cooldown.  First
conjunct (general): over any run, any two dispatch times are at least
`ALERT_COOLDOWN` apart.  Second conjunct (scenario of the spec): two
alert-worthy readings evaluated 10 seconds apart, with a configured,
resolvable destination, successful sends, and an initially expired
cooldown, produce exactly one dispatch — at the first reading's time. -/
theorem alert_cooldown_rate_limit :
    (∀ (chan : Option ℤ) (last : ℚ) (inputs : List AlertInput),
      List.Pairwise (fun a b => a + ALERT_COOLDOWN ≤ b)
        (emissions chan last inputs)) ∧
    (∀ (chan : Option ℤ) (st0 : ℚ) (i1 i2 : AlertInput),
      channelConfigured chan = true →
      alertNeeded SULCATA_ENV i1.temp i1.hum = true →
      alertNeeded SULCATA_ENV i2.temp i2.hum = true →
      i1.channelFound = true → i1.sendOk = true →
      i2.channelFound = true → i2.sendOk = true →
      st0 + ALERT_COOLDOWN ≤ i1.now →
      i2.now = i1.now + 10 →
      emissions chan st0 [i1, i2] = [i1.now]) := by
  constructor
  · intro chan last inputs
    exact emissions_pairwise chan inputs last
  · intro chan st0 i1 i2 hcfg ha1 ha2 hf1 hs1 hf2 hs2 hexp h10
    have hc1 : check_conditions_and_alert chan st0 i1 = (i1.now, true) := by
      rw [check_spec]
      have hcd1 : ALERT_COOLDOWN ≤ i1.now - st0 := by linarith
      simp [hcfg, ha1, hf1, hs1, hcd1]
    have hc2 : check_conditions_and_alert chan i1.now i2
        = (i1.now, false) := by
      rw [check_spec]
      have hcd2 : ¬ ALERT_COOLDOWN ≤ i2.now - i1.now := by
        rw [h10]
        norm_num [ALERT_COOLDOWN]
      simp [hcd2]
    rw [emissions_cons_true chan st0 i1 [i2] i1.now hc1,
      emissions_cons_false chan i1.now i2 [] i1.now hc2]
    exact rfl

/-- Witness for C3 at a concrete scenario: breaching readings (41 °C) at
times 2000 and 2010, starting cooldown state 0, channel 7 configured. -/
theorem alert_cooldown_rate_limit_witness :
    emissions (some 7) 0
      [⟨2000, 41, 50, true, true⟩, ⟨2010, 41, 50, true, true⟩]
      = [2000] :=
  alert_cooldown_rate_limit.2 (some 7) 0 _ _ (by decide) (by decide)
    (by decide) rfl rfl rfl rfl (by norm_num [ALERT_COOLDOWN])
    (by norm_num)

/-- Claim C4 counterexample: a reading that is alert-worthy (41 °C), with
a configured destination (channel 1), an expired cooldown
(`last_alert_time = 0`, evaluated at `t = 2000`), and a resolvable
channel, whose `channel.send` raises: the cooldown timestamp stays 0
instead of being advanced to 2000, so the claim "advanced regardless of
whether the dispatch succeeds or fails" is false on the code. -/
theorem cooldown_not_advanced_on_failed_dispatch :
    channelConfigured (some 1) = true ∧
    ALERT_COOLDOWN ≤ (2000 : ℚ) - 0 ∧
    alertNeeded SULCATA_ENV 41 50 = true ∧
    (check_conditions_and_alert (some 1) 0 ⟨2000, 41, 50, true, false⟩).1
        = 0 ∧
    (0 : ℚ) ≠ 2000 := by
  refine ⟨by decide, by norm_num [ALERT_COOLDOWN], by decide, ?_, by norm_num⟩
  simp [check_spec]

/-- Claim C4 amended: when a reading is evaluated as alert-worthy with a
configured destination and an expired cooldown, the cooldown timestamp is
advanced to the current time exactly when the dispatch succeeds (the
channel resolves and `channel.send` returns); when the dispatch fails the
timestamp is unchanged (and no alert counts as sent). -/
theorem cooldown_advance_iff_dispatch_success (chan : Option ℤ)
    (last : ℚ) (inp : AlertInput)
    (hcfg : channelConfigured chan = true)
    (hcd : ALERT_COOLDOWN ≤ inp.now - last)
    (ha : alertNeeded SULCATA_ENV inp.temp inp.hum = true) :
    ((inp.channelFound = true ∧ inp.sendOk = true) →
      check_conditions_and_alert chan last inp = (inp.now, true)) ∧
    (¬ (inp.channelFound = true ∧ inp.sendOk = true) →
      check_conditions_and_alert chan last inp = (last, false)) := by
  rw [check_spec]
  constructor
  · rintro ⟨hf, hs⟩
    have hcond : (channelConfigured chan
        && decide (ALERT_COOLDOWN ≤ inp.now - last)
        && alertNeeded SULCATA_ENV inp.temp inp.hum
        && inp.channelFound && inp.sendOk) = true := by
      simp [hcfg, hcd, ha, hf, hs]
    rw [if_pos hcond]
  · intro hnot
    have hcond : ¬ (channelConfigured chan
        && decide (ALERT_COOLDOWN ≤ inp.now - last)
        && alertNeeded SULCATA_ENV inp.temp inp.hum
        && inp.channelFound && inp.sendOk) = true := by
      intro hconj
      simp only [Bool.and_eq_true] at hconj
      exact hnot ⟨hconj.1.2, hconj.2⟩
    rw [if_neg hcond]

/-- Witness for the amended C4 at concrete inputs: channel 5 configured,
prior state 0, breaching reading (41 °C) at time 2000; with a successful
send the state advances to 2000, with a failing send it stays 0. -/
theorem cooldown_advance_iff_dispatch_success_witness :
    channelConfigured (some 5) = true ∧
    ALERT_COOLDOWN ≤ (2000 : ℚ) - 0 ∧
    alertNeeded SULCATA_ENV 41 50 = true ∧
    check_conditions_and_alert (some 5) 0 ⟨2000, 41, 50, true, true⟩
      = (2000, true) ∧
    check_conditions_and_alert (some 5) 0 ⟨2000, 41, 50, true, false⟩
      = (0, false) :=
  ⟨by decide, by norm_num [ALERT_COOLDOWN], by decide,
    (cooldown_advance_iff_dispatch_success (some 5) 0
        ⟨2000, 41, 50, true, true⟩ (by decide)
        (by norm_num [ALERT_COOLDOWN]) (by decide)).1 ⟨rfl, rfl⟩,
    (cooldown_advance_iff_dispatch_success (some 5) 0
        ⟨2000, 41, 50, true, false⟩ (by decide)
        (by norm_num [ALERT_COOLDOWN]) (by decide)).2 (by simp)⟩

-- --- Rolling-average smoothing (C9) ---

/-- Forward fill preserves length. -/
lemma ffillAux_length (l : List (Option ℚ)) :
    ∀ c, (ffillAux c l).length = l.length := by
  induction l with
  | nil => intro c; rfl
  | cons hd t ih =>
    intro c
    cases hd with
    | none => simp [ffillAux, ih]
    | some x => simp [ffillAux, ih]

/-- `ffill` preserves length. -/
lemma ffill_length (l : List (Option ℚ)) : (ffill l).length = l.length :=
  ffillAux_length l none

/-- `bfill` preserves length. -/
lemma bfill_length (l : List (Option ℚ)) : (bfill l).length = l.length := by
  unfold bfill
  rw [List.length_reverse, ffill_length, List.length_reverse]

/-- Once the carry is valid, every forward-filled position is valid. -/
lemma ffillAux_some_all (l : List (Option ℚ)) :
    ∀ (c : ℚ) o, o ∈ ffillAux (some c) l → o.isSome := by
  induction l with
  | nil =>
    intro c o ho
    simp [ffillAux] at ho
  | cons hd t ih =>
    intro c o ho
    cases hd with
    | none =>
      rcases List.mem_cons.mp ho with rfl | ho2
      · rfl
      · exact ih c o ho2
    | some x =>
      rcases List.mem_cons.mp ho with rfl | ho2
      · rfl
      · exact ih x o ho2

/-- A forward fill whose carry is already valid produces a list ending in
a valid value (for nonempty input). -/
lemma ffillAux_someCarry_reverse (t : List (Option ℚ)) (c : ℚ)
    (hne : t ≠ []) :
    ∃ y rest, (ffillAux (some c) t).reverse = some y :: rest := by
  have hlen : (ffillAux (some c) t).reverse ≠ [] := by
    intro hnil
    have := congrArg List.length hnil
    rw [List.length_reverse, ffillAux_length] at this
    exact hne (List.length_eq_zero.mp this)
  obtain ⟨hd, rest, hcons⟩ := List.exists_cons_of_ne_nil hlen
  have hmem : hd ∈ ffillAux (some c) t := by
    rw [← List.mem_reverse, hcons]
    exact List.mem_cons_self _ _
  have hsome := ffillAux_some_all t c hd hmem
  obtain ⟨y, hy⟩ := Option.isSome_iff_exists.mp hsome
  exact ⟨y, rest, by rw [hcons, hy]⟩

/-- If the input has any valid position, the forward-filled list ends in a
valid value. -/
lemma ffillAux_reverse_some (l : List (Option ℚ)) :
    ∀ (c : Option ℚ), (∃ o ∈ l, o.isSome) →
      ∃ y rest, (ffillAux c l).reverse = some y :: rest := by
  induction l with
  | nil =>
    intro c hex
    simp at hex
  | cons hd t ih =>
    intro c hex
    cases hd with
    | some x =>
      have hstep : ffillAux c (some x :: t)
          = some x :: ffillAux (some x) t := rfl
      cases t with
      | nil => exact ⟨x, [], by rw [hstep]; rfl⟩
      | cons hd2 t2 =>
        obtain ⟨y, rest, hrev⟩ :=
          ffillAux_someCarry_reverse (hd2 :: t2) x (List.cons_ne_nil hd2 t2)
        refine ⟨y, rest ++ [some x], ?_⟩
        rw [hstep, List.reverse_cons, hrev, List.cons_append]
    | none =>
      have hext : ∃ o ∈ t, o.isSome := by
        rcases hex with ⟨o, ho, hos⟩
        rcases List.mem_cons.mp ho with rfl | ho2
        · exact absurd hos (by decide)
        · exact ⟨o, ho2, hos⟩
      obtain ⟨y, rest, hrev⟩ := ih c hext
      refine ⟨y, rest ++ [c], ?_⟩
      rw [show ffillAux c (none :: t) = c :: ffillAux c t from rfl]
      rw [List.reverse_cons, hrev, List.cons_append]

/-- If the input has any valid position, backward fill after forward fill
leaves no missing position. -/
lemma bfill_ffill_all_some (l : List (Option ℚ))
    (hex : ∃ o ∈ l, o.isSome) :
    ∀ o ∈ bfill (ffill l), o.isSome := by
  obtain ⟨y, rest, hrev⟩ := ffillAux_reverse_some l none hex
  intro o ho
  unfold bfill at ho
  rw [show ffill l = ffillAux none l from rfl, hrev] at ho
  rw [List.mem_reverse] at ho
  rw [show ffill (some y :: rest) = some y :: ffillAux (some y) rest
      from rfl] at ho
  rcases List.mem_cons.mp ho with rfl | ho2
  · rfl
  · exact ffillAux_some_all rest y o ho2

/-- The rolling mean has one (possibly missing) value per input position. -/
lemma rollingCenteredMean_length (w : ℕ) (xs : List ℚ) :
    (rollingCenteredMean w xs).length = xs.length := by
  unfold rollingCenteredMean
  rw [List.length_map, List.length_range]

/-- For a positive window no longer than the input, at least one position
has a fully available window, hence a computed value. -/
lemma rollingCenteredMean_has_some (w : ℕ) (xs : List ℚ) (hw : 0 < w)
    (hlen : w ≤ xs.length) :
    ∃ o ∈ rollingCenteredMean w xs, o.isSome := by
  have hi : w / 2 < xs.length :=
    lt_of_lt_of_le (Nat.div_lt_self hw (by norm_num)) hlen
  unfold rollingCenteredMean
  refine ⟨_, List.mem_map_of_mem _ (List.mem_range.mpr hi), ?_⟩
  have hcond : w / 2 ≤ w / 2 ∧ w / 2 - w / 2 + w ≤ xs.length :=
    ⟨le_refl _, by omega⟩
  rw [if_pos hcond]
  rfl

/-- Claim C9: for a positive window `w`, the smoothing path of
`!plot_rolling` on an input of length at least `w` produces smoothed
columns of the same length as the input with no missing position left
after forward/backward edge fill; a shorter input reports
insufficient data instead. -/
theorem rolling_smoothing_total (w : ℕ) (df : List Entry) (hw : 0 < w) :
    (w ≤ df.length →
      send_plot_rolling w df
        = .plotted
            (bfill (ffill (rollingCenteredMean w (df.map Entry.temp))))
            (bfill (ffill (rollingCenteredMean w (df.map Entry.hum)))) ∧
      (bfill (ffill (rollingCenteredMean w
          (df.map Entry.temp)))).length = df.length ∧
      (bfill (ffill (rollingCenteredMean w
          (df.map Entry.hum)))).length = df.length ∧
      (∀ o ∈ bfill (ffill (rollingCenteredMean w (df.map Entry.temp))),
        o.isSome) ∧
      (∀ o ∈ bfill (ffill (rollingCenteredMean w (df.map Entry.hum))),
        o.isSome)) ∧
    (df.length < w → send_plot_rolling w df = .insufficient) := by
  constructor
  · intro hlen
    have hne : ¬ (df.length = 0 ∨ df.length < w) := by omega
    refine ⟨by unfold send_plot_rolling; rw [if_neg hne], ?_, ?_, ?_, ?_⟩
    · rw [bfill_length, ffill_length, rollingCenteredMean_length,
        List.length_map]
    · rw [bfill_length, ffill_length, rollingCenteredMean_length,
        List.length_map]
    · exact bfill_ffill_all_some _
        (rollingCenteredMean_has_some w (df.map Entry.temp) hw
          (by rw [List.length_map]; exact hlen))
    · exact bfill_ffill_all_some _
        (rollingCenteredMean_has_some w (df.map Entry.hum) hw
          (by rw [List.length_map]; exact hlen))
  · intro hlt
    unfold send_plot_rolling
    rw [if_pos (Or.inr hlt)]

/-- Witness for C9 with window 2 on a three-reading frame. -/
theorem rolling_smoothing_total_witness :
    0 < 2 ∧
    (send_plot_rolling 2
        [⟨28, 50, 1, []⟩, ⟨29, 51, 2, []⟩, ⟨30, 52, 3, []⟩]
      = .plotted
          (bfill (ffill (rollingCenteredMean 2
            (([⟨28, 50, 1, []⟩, ⟨29, 51, 2, []⟩, ⟨30, 52, 3, []⟩]
              : List Entry).map Entry.temp))))
          (bfill (ffill (rollingCenteredMean 2
            (([⟨28, 50, 1, []⟩, ⟨29, 51, 2, []⟩, ⟨30, 52, 3, []⟩]
              : List Entry).map Entry.hum)))) ∧
      (bfill (ffill (rollingCenteredMean 2
        (([⟨28, 50, 1, []⟩, ⟨29, 51, 2, []⟩, ⟨30, 52, 3, []⟩]
          : List Entry).map Entry.temp)))).length = 3 ∧
      (bfill (ffill (rollingCenteredMean 2
        (([⟨28, 50, 1, []⟩, ⟨29, 51, 2, []⟩, ⟨30, 52, 3, []⟩]
          : List Entry).map Entry.hum)))).length = 3 ∧
      (∀ o ∈ bfill (ffill (rollingCenteredMean 2
        (([⟨28, 50, 1, []⟩, ⟨29, 51, 2, []⟩, ⟨30, 52, 3, []⟩]
          : List Entry).map Entry.temp))), o.isSome) ∧
      (∀ o ∈ bfill (ffill (rollingCenteredMean 2
        (([⟨28, 50, 1, []⟩, ⟨29, 51, 2, []⟩, ⟨30, 52, 3, []⟩]
          : List Entry).map Entry.hum))), o.isSome)) :=
  ⟨by norm_num,
    (rolling_smoothing_total 2
      [⟨28, 50, 1, []⟩, ⟨29, 51, 2, []⟩, ⟨30, 52, 3, []⟩]
      (by norm_num)).1 (by norm_num)⟩

end SulcataBot
